import Mathlib

/-!
# Verification of the Magento 2 ↔ onX adapter core

A shallow embedding, in Lean 4, of the translation and query-adapter layer of
the `magento2-onx-mcp` adapter:

* `buildSearchCriteria` / `idsFilter` (tools/_helpers.ts),
* the order mapper `mapM2OrderToOnx` (mappers/order-mapper.ts),
* the product-variant mapper `mapM2ProductVariantToOnx`
  (mappers/product-variant-mapper.ts),
* the product mapper `mapM2ProductToOnx` (mappers/product-mapper.ts),
* the variant option resolver `resolveSelectedOptions`
  (tools/get-product-variants.ts),
* the get-returns read path with its RMA → credit-memo fallback
  (tools/get-returns.ts) and the create-return write path
  (tools/create-return.ts), against an abstract transport whose outcomes are
  passed in explicitly,
* the `get-products` request plan (tools/get-products.ts).

JavaScript numbers are modelled as rationals (`ℚ`), JavaScript strings as
Lean `String`s, and possibly-`undefined` values as `Option`s.  JavaScript
truthiness (`x || d`, `x ? a : b`) is modelled explicitly by the `js*`
helpers below: `""`, `0`, `undefined` and an empty `length` are falsy;
(`NaN` does not arise in any modelled code path).
-/

/-- JS `s || d` for an optional string `s`: `undefined` and `""` are falsy. -/
def jsOrStr (s : Option String) (d : String) : String :=
  match s with
  | none => d
  | some v => if v = "" then d else v

/-- JS `s || undefined` for an optional string: collapses `""` to `undefined`. -/
def jsStrOrUndef (s : Option String) : Option String :=
  match s with
  | none => none
  | some v => if v = "" then none else some v

/-- JS `a || b` where both sides are optional strings (e.g.
`addr.region_code || addr.region`). -/
def jsOrStrOpt (a b : Option String) : Option String :=
  match a with
  | none => b
  | some v => if v = "" then b else some v

/-- JS `x || d` for an optional number `x`: `undefined` and `0` are falsy. -/
def jsOrNum (x : Option ℚ) (d : ℚ) : ℚ :=
  match x with
  | none => d
  | some v => if v = 0 then d else v

/-- JS `x || undefined` for an optional number: collapses `0` to `undefined`. -/
def jsNumOrUndef (x : Option ℚ) : Option ℚ :=
  match x with
  | none => none
  | some v => if v = 0 then none else some v

/-- JS truthiness of an optional string (used in `if (params.createdAtMin)`):
`undefined` and `""` are falsy. -/
def jsTruthyStr (s : Option String) : Bool :=
  match s with
  | none => false
  | some v => v ≠ ""

/-- JS truthiness of `xs?.length` for an optional array (used in
`if (params.ids?.length)`): `undefined` and `[]` are falsy. -/
def jsTruthyLen {α : Type} (xs : Option (List α)) : Bool :=
  match xs with
  | none => false
  | some l => !l.isEmpty

/-- Whether the character list `pat` occurs as a contiguous run starting at the
head of `s` (helper for JS `String.prototype.includes`). -/
def charsStartWith : List Char → List Char → Bool
  | _, [] => true
  | [], _ :: _ => false
  | a :: as, b :: bs => a = b && charsStartWith as bs

/-- Whether the character list `pat` occurs contiguously anywhere in `s`. -/
def charsContain : List Char → List Char → Bool
  | s, pat =>
    match s with
    | [] => charsStartWith [] pat
    | _ :: rest => charsStartWith s pat || charsContain rest pat

/-- JS `s.includes(pat)`: substring containment. -/
def jsIncludes (s pat : String) : Bool :=
  charsContain s.toList pat.toList

/- ### Search criteria (client/magento-client.ts, tools/_helpers.ts) -/

/-- One native filter: `{ field, value, conditionType }`. -/
structure M2Filter where
  field : String
  value : String
  conditionType : String
  deriving Repr, DecidableEq

/-- One native filter group: `{ filters: [...] }`.  Groups are ANDed with each
other by the platform. -/
structure FilterGroup where
  filters : List M2Filter
  deriving Repr, DecidableEq

/-- One native sort order: `{ field, direction }`. -/
structure SortOrder where
  field : String
  direction : String
  deriving Repr, DecidableEq

/-- The native `SearchCriteria` value (client/magento-client.ts).
`filterGroups` is an `Option` because the builder omits the key entirely
(`undefined`) when no filter exists. -/
structure SearchCriteria where
  filterGroups : Option (List FilterGroup)
  sortOrders : List SortOrder
  currentPage : ℕ
  pageSize : ℕ
  deriving Repr, DecidableEq

/-- Input to `buildSearchCriteria` (tools/_helpers.ts): four optional temporal
bounds, optional paging numbers, and an optional extra-filter list.
`skip` and `pageSize` are modelled as naturals (the adapter's callers pass
non-negative integer counts). -/
structure CriteriaParams where
  updatedAtMin : Option String := none
  updatedAtMax : Option String := none
  createdAtMin : Option String := none
  createdAtMax : Option String := none
  pageSize : Option ℕ := none
  skip : Option ℕ := none
  extraFilters : Option (List M2Filter) := none
  deriving Repr, DecidableEq

/-- `buildSearchCriteria` (tools/_helpers.ts, lines 20–59), translated
clause by clause: each truthy temporal bound pushes one single-filter group,
then every extra filter pushes one single-filter group; paging is
`pageSize = params.pageSize || 10`, `skip = params.skip || 0`,
`currentPage = floor(skip / pageSize) + 1`; `filterGroups` is kept only when
non-empty; the sort order is fixed. -/
def buildSearchCriteria (params : CriteriaParams) : SearchCriteria :=
  let fg0 : List FilterGroup :=
    (if jsTruthyStr params.createdAtMin then
      [⟨[⟨"created_at", params.createdAtMin.getD "", "gteq"⟩]⟩] else []) ++
    (if jsTruthyStr params.createdAtMax then
      [⟨[⟨"created_at", params.createdAtMax.getD "", "lteq"⟩]⟩] else []) ++
    (if jsTruthyStr params.updatedAtMin then
      [⟨[⟨"updated_at", params.updatedAtMin.getD "", "gteq"⟩]⟩] else []) ++
    (if jsTruthyStr params.updatedAtMax then
      [⟨[⟨"updated_at", params.updatedAtMax.getD "", "lteq"⟩]⟩] else [])
  let filterGroups : List FilterGroup :=
    fg0 ++ (params.extraFilters.getD []).map (fun f => ⟨[f]⟩)
  let pageSize : ℕ := match params.pageSize with
    | none => 10
    | some n => if n = 0 then 10 else n
  let skip : ℕ := params.skip.getD 0
  let currentPage : ℕ := skip / pageSize + 1
  { filterGroups := if filterGroups.length > 0 then some filterGroups else none
    sortOrders := [⟨"created_at", "DESC"⟩]
    currentPage := currentPage
    pageSize := pageSize }

/-- `idsFilter` (tools/_helpers.ts, lines 61–63): a single membership filter
whose value is the comma-join of the ids. -/
def idsFilter (field : String) (ids : List String) : M2Filter :=
  ⟨field, String.intercalate "," ids, "in"⟩

/- ### Native order shapes (types/magento.ts) -/

/-- `M2Address` (types/magento.ts). -/
structure M2Address where
  firstname : Option String := none
  lastname : Option String := none
  company : Option String := none
  street : Option (List String) := none
  city : Option String := none
  region_code : Option String := none
  region : Option String := none
  postcode : Option String := none
  country_id : Option String := none
  telephone : Option String := none
  email : Option String := none
  deriving Repr, DecidableEq

/-- `M2OrderItem` (types/magento.ts). -/
structure M2OrderItem where
  item_id : ℤ
  sku : String
  name : Option String := none
  qty_ordered : ℚ
  price : ℚ
  discount_amount : Option ℚ := none
  row_total : ℚ
  product_type : Option String := none
  deriving Repr, DecidableEq

/-- The `shipping_assignments` entries nested under an order's
`extension_attributes`. -/
structure M2ShippingAssignment where
  address : Option M2Address := none
  deriving Repr, DecidableEq

/-- `M2Order` (types/magento.ts).  The `extension_attributes` wrapper is
flattened to the optional list of shipping assignments, each carrying its
optional `shipping.address`. -/
structure M2Order where
  entity_id : ℤ
  ext_order_id : Option String := none
  increment_id : String
  state : String
  status : String
  store_id : ℤ
  items : Option (List M2OrderItem) := none
  customer_email : String
  customer_firstname : Option String := none
  customer_lastname : Option String := none
  billing_address : Option M2Address := none
  order_currency_code : String
  subtotal : ℚ
  grand_total : ℚ
  tax_amount : ℚ
  discount_amount : Option ℚ := none
  payment : Option String := none
  shipping_description : Option String := none
  shipping_method : Option String := none
  shipping_amount : Option ℚ := none
  created_at : String
  updated_at : String
  shipping_assignments : Option (List M2ShippingAssignment) := none
  deriving Repr, DecidableEq

/- ### Canonical (onX) order shapes -/

/-- A namespaced custom field `{ name, value }`. -/
structure CustomField where
  name : String
  value : String
  deriving Repr, DecidableEq

/-- The canonical address produced by `mapM2Address`. -/
structure OnxAddress where
  firstName : Option String
  lastName : Option String
  company : Option String
  address1 : String
  address2 : String
  city : Option String
  stateOrProvince : Option String
  zipCodeOrPostalCode : Option String
  country : Option String
  phone : Option String
  email : Option String
  deriving Repr, DecidableEq

/-- One canonical order line item. -/
structure OnxLineItem where
  id : String
  sku : String
  quantity : ℚ
  unitPrice : ℚ
  unitDiscount : ℚ
  totalPrice : ℚ
  name : Option String
  customFields : List CustomField
  deriving Repr, DecidableEq

/-- The `customer` sub-object of a canonical order. -/
structure OnxOrderCustomer where
  email : String
  firstName : Option String
  lastName : Option String
  deriving Repr, DecidableEq

/-- The canonical order produced by `mapM2OrderToOnx`. -/
structure OnxOrder where
  id : String
  externalId : Option String
  name : String
  status : String
  lineItems : List OnxLineItem
  customer : OnxOrderCustomer
  billingAddress : Option OnxAddress
  currency : String
  subTotalPrice : ℚ
  totalPrice : ℚ
  orderTax : ℚ
  orderDiscount : ℚ
  orderNote : String
  orderSource : String
  paymentStatus : String
  payments : List String
  shippingAddress : Option OnxAddress
  shippingCarrier : Option String
  shippingClass : String
  shippingCode : String
  shippingNote : String
  shippingPrice : Option ℚ
  giftNote : String
  incoterms : String
  createdAt : String
  updatedAt : String
  customFields : List CustomField
  deriving Repr, DecidableEq

/-- `mapM2Address` (mappers/order-mapper.ts, lines 71–85). -/
def mapM2Address (addr : M2Address) : OnxAddress :=
  { firstName := addr.firstname
    lastName := addr.lastname
    company := addr.company
    address1 := jsOrStr ((addr.street.getD []).get? 0) ""
    address2 := jsOrStr ((addr.street.getD []).get? 1) ""
    city := addr.city
    stateOrProvince := jsOrStrOpt addr.region_code addr.region
    zipCodeOrPostalCode := addr.postcode
    country := addr.country_id
    phone := addr.telephone
    email := addr.email }

/-- `extractShippingAddress` (mappers/order-mapper.ts, lines 87–91):
`order.extension_attributes?.shipping_assignments?.[0]?.shipping?.address`,
mapped when present. -/
def extractShippingAddress (order : M2Order) : Option OnxAddress :=
  match ((order.shipping_assignments.getD []).get? 0).bind (·.address) with
  | some addr => some (mapM2Address addr)
  | none => none

/-- The per-item translation inside `mapM2OrderToOnx`
(mappers/order-mapper.ts, lines 13–24). -/
def mapM2OrderItem (vendorNs : String) (item : M2OrderItem) : OnxLineItem :=
  { id := toString item.item_id
    sku := item.sku
    quantity := item.qty_ordered
    unitPrice := item.price
    unitDiscount := jsOrNum item.discount_amount 0
    totalPrice := item.row_total
    name := item.name
    customFields := [⟨vendorNs ++ ":product_type", jsOrStr item.product_type "simple"⟩] }

/-- `mapM2OrderToOnx` (mappers/order-mapper.ts, lines 10–69): line items are
the native items minus `"configurable"`-typed entries, each mapped by
`mapM2OrderItem`; `orderDiscount` is `Math.abs(discount_amount || 0)`. -/
def mapM2OrderToOnx (m2Order : M2Order) (vendorNs : String) : OnxOrder :=
  let lineItems :=
    ((m2Order.items.getD []).filter
      (fun item => item.product_type ≠ some "configurable")).map
      (mapM2OrderItem vendorNs)
  { id := toString m2Order.entity_id
    externalId := jsStrOrUndef m2Order.ext_order_id
    name := m2Order.increment_id
    status := m2Order.state
    lineItems := lineItems
    customer :=
      { email := m2Order.customer_email
        firstName := m2Order.customer_firstname
        lastName := m2Order.customer_lastname }
    billingAddress := (m2Order.billing_address).map mapM2Address
    currency := m2Order.order_currency_code
    subTotalPrice := m2Order.subtotal
    totalPrice := m2Order.grand_total
    orderTax := m2Order.tax_amount
    orderDiscount := |jsOrNum m2Order.discount_amount 0|
    orderNote := ""
    orderSource := "magento2"
    paymentStatus := if m2Order.state = "complete" then "paid" else m2Order.state
    payments := match m2Order.payment with
      | some method => [method]
      | none => []
    shippingAddress := extractShippingAddress m2Order
    shippingCarrier := m2Order.shipping_description
    shippingClass := ""
    shippingCode := jsOrStr m2Order.shipping_method ""
    shippingNote := ""
    shippingPrice := m2Order.shipping_amount
    giftNote := ""
    incoterms := ""
    createdAt := m2Order.created_at
    updatedAt := m2Order.updated_at
    customFields :=
      [⟨vendorNs ++ ":state", m2Order.state⟩,
       ⟨vendorNs ++ ":status", m2Order.status⟩,
       ⟨vendorNs ++ ":store_id", toString m2Order.store_id⟩] }

/- ### Native product shapes (types/magento.ts) -/

/-- `M2CustomAttribute` (types/magento.ts): `{ attribute_code, value }`. -/
structure M2CustomAttribute where
  attribute_code : String
  value : String
  deriving Repr, DecidableEq

/-- `M2ConfigurableOptionValue` (types/magento.ts): `{ value_index }`. -/
structure M2ConfigurableOptionValue where
  value_index : ℤ
  deriving Repr, DecidableEq

/-- `M2ConfigurableOption` (types/magento.ts). -/
structure M2ConfigurableOption where
  attribute_id : ℤ
  label : String
  attribute_code : Option String := none
  values : Option (List M2ConfigurableOptionValue) := none
  deriving Repr, DecidableEq

/-- `M2Product` (types/magento.ts).  The `extension_attributes` wrapper is
flattened to its two optional lists. -/
structure M2Product where
  id : ℤ
  sku : String
  name : String
  status : ℤ
  price : ℚ
  weight : Option ℚ := none
  type_id : String
  attribute_set_id : ℤ
  created_at : String
  updated_at : String
  custom_attributes : Option (List M2CustomAttribute) := none
  media_gallery_entries : Option (List String) := none
  configurable_product_options : Option (List M2ConfigurableOption) := none
  category_links : Option (List String) := none
  deriving Repr, DecidableEq

/-- The `getAttr` closure shared by the product and variant mappers: the value
of the first custom attribute with the given code, if any. -/
def getAttr (customAttrs : List M2CustomAttribute) (code : String) : Option String :=
  (customAttrs.find? (fun a => a.attribute_code = code)).map (·.value)

/- ### Canonical (onX) product and variant shapes -/

/-- One canonical product option `{ name, values }`. -/
structure OnxProductOption where
  name : String
  values : List String
  deriving Repr, DecidableEq

/-- The canonical product produced by `mapM2ProductToOnx`. -/
structure OnxProduct where
  id : String
  externalId : String
  externalProductId : String
  name : String
  description : Option String
  handle : Option String
  status : String
  vendor : String
  categories : List String
  options : List OnxProductOption
  imageURLs : List String
  tags : List String
  createdAt : String
  updatedAt : String
  customFields : List CustomField
  deriving Repr, DecidableEq

/-- `mapM2ProductToOnx` (mappers/product-mapper.ts, lines 10–40). -/
def mapM2ProductToOnx (product : M2Product) (vendorNs : String)
    (_currency : String) : OnxProduct :=
  let customAttrs := product.custom_attributes.getD []
  let options : List OnxProductOption :=
    (product.configurable_product_options.getD []).map (fun opt =>
      ⟨opt.label, (opt.values.getD []).map (fun v => toString v.value_index)⟩)
  { id := toString product.id
    externalId := product.sku
    externalProductId := product.sku
    name := product.name
    description := getAttr customAttrs "description"
    handle := getAttr customAttrs "url_key"
    status := if product.status = 1 then "active" else "inactive"
    vendor := jsOrStr (getAttr customAttrs "manufacturer") ""
    categories := product.category_links.getD []
    options := if options.length > 0 then options else [⟨"Default", []⟩]
    imageURLs := product.media_gallery_entries.getD []
    tags := []
    createdAt := product.created_at
    updatedAt := product.updated_at
    customFields :=
      [⟨vendorNs ++ ":type_id", product.type_id⟩,
       ⟨vendorNs ++ ":attribute_set_id", toString product.attribute_set_id⟩] }

/-- A selected option / name-value pair `{ name, value }`. -/
structure SelectedOption where
  name : String
  value : String
  deriving Repr, DecidableEq

/-- Weight with unit, as emitted by the variant mapper. -/
structure OnxWeight where
  value : ℚ
  unit : String
  deriving Repr, DecidableEq

/-- Dimensions with unit, as emitted by the variant mapper. -/
structure OnxDimensions where
  length : ℚ
  width : ℚ
  height : ℚ
  unit : String
  deriving Repr, DecidableEq

/-- The canonical variant produced by `mapM2ProductVariantToOnx`.
`productId` is an `Option String` so that "key present with a string value"
(`some s`) is distinguished from "key absent" (`none`); the mapper always
emits the key. -/
structure OnxVariant where
  id : String
  externalId : String
  productId : Option String
  externalProductId : Option String
  sku : String
  barcode : Option String
  upc : Option String
  title : String
  selectedOptions : List SelectedOption
  price : ℚ
  currency : String
  compareAtPrice : Option ℚ
  cost : Option ℚ
  costCurrency : Option String
  inventoryNotTracked : Bool
  weight : Option OnxWeight
  dimensions : Option OnxDimensions
  imageURLs : List String
  taxable : Bool
  tags : List String
  createdAt : String
  updatedAt : String
  customFields : List CustomField
  deriving Repr, DecidableEq

/-- JS `Number(s)` on the attribute strings used by the variant mapper,
modelled as an abstract (but fixed) parse of decimal strings: the numeral
value when the string is a non-negative decimal integer numeral, else 0
(the `Number(x) || 0` fallback in `buildDimensions`; `special_price`/`cost`
attribute strings are decimal numerals in practice).  The claims under
verification never depend on this parse. -/
def jsNumberOfString (s : String) : ℚ :=
  match s.toNat? with
  | some n => (n : ℚ)
  | none => 0

/-- `buildDimensions` (mappers/product-variant-mapper.ts, lines 54–68). -/
def buildDimensions (attrs : List M2CustomAttribute) : Option OnxDimensions :=
  let length := getAttr attrs "ts_dimensions_length"
  let width := getAttr attrs "ts_dimensions_width"
  let height := getAttr attrs "ts_dimensions_height"
  if jsTruthyStr length || jsTruthyStr width || jsTruthyStr height then
    some
      { length := jsOrNum ((jsStrOrUndef length).map jsNumberOfString) 0
        width := jsOrNum ((jsStrOrUndef width).map jsNumberOfString) 0
        height := jsOrNum ((jsStrOrUndef height).map jsNumberOfString) 0
        unit := "in" }
  else none

/-- `mapM2ProductVariantToOnx` (mappers/product-variant-mapper.ts,
lines 10–52).  In particular (lines 26–27):
`productId: parentId || ""` and
`externalProductId: parentId ? undefined : product.sku`. -/
def mapM2ProductVariantToOnx (product : M2Product) (parentId : Option String)
    (vendorNs : String) (currency : String)
    (selectedOptions : Option (List SelectedOption)) : OnxVariant :=
  let customAttrs := product.custom_attributes.getD []
  let specialPrice := getAttr customAttrs "special_price"
  let cost := getAttr customAttrs "cost"
  { id := toString product.id
    externalId := product.sku
    productId := some (jsOrStr parentId "")
    externalProductId := if jsTruthyStr parentId then none else some product.sku
    sku := product.sku
    barcode := jsOrStrOpt (getAttr customAttrs "barcode")
      (jsStrOrUndef (getAttr customAttrs "gtin"))
    upc := jsStrOrUndef (getAttr customAttrs "upc")
    title := product.name
    selectedOptions := selectedOptions.getD []
    price := product.price
    currency := currency
    compareAtPrice := (jsStrOrUndef specialPrice).map jsNumberOfString
    cost := (jsStrOrUndef cost).map jsNumberOfString
    costCurrency := if jsTruthyStr cost then some currency else none
    inventoryNotTracked := false
    weight := match jsNumOrUndef product.weight with
      | some w => some ⟨w, "lb"⟩
      | none => none
    dimensions := buildDimensions customAttrs
    imageURLs := product.media_gallery_entries.getD []
    taxable := true
    tags := []
    createdAt := product.created_at
    updatedAt := product.updated_at
    customFields := [⟨vendorNs ++ ":type_id", product.type_id⟩] }

/- ### Variant option resolution (tools/get-product-variants.ts) -/

/-- JS whitespace, as matched by the `\s` regex class (ASCII portion; the
labels in play contain no exotic Unicode spacing). -/
def isJsWs (c : Char) : Bool :=
  c = ' ' || c = '\t' || c = '\n' || c = '\r' || c = '\x0b' || c = '\x0c'

/-- `label.replace(/\s+/g, "_")` on a character list: every maximal run of
whitespace becomes a single underscore.  Implemented as a right fold whose
flag records whether the character to the right was whitespace. -/
def wsRunsToUnderscore (l : List Char) : List Char :=
  (l.foldr
    (fun c acc =>
      if isJsWs c then
        if acc.2 then acc else ('_' :: acc.1, true)
      else (c :: acc.1, false))
    (([] : List Char), false)).1

/-- `label?.toLowerCase().replace(/\s+/g, "_")`
(tools/get-product-variants.ts, line 133): the fallback child-side lookup
key derived from an option label. -/
def labelToKey (label : String) : String :=
  String.mk (wsRunsToUnderscore (label.toList.map Char.toLower))

/-- `buildOptionLabelMap` (tools/get-product-variants.ts, lines 97–111),
restricted to the label component (the `valueMap` component is built but
never read by `resolveSelectedOptions`).  `Map.set` overwrites, so a lookup
returns the label of the LAST option declaring the attribute id. -/
def buildOptionLabelMap (configOptions : List M2ConfigurableOption) :
    List (ℤ × String) :=
  configOptions.map (fun opt => (opt.attribute_id, opt.label))

/-- `Map.get` on the label map: the most recently `set` entry wins. -/
def optionLabelMapGet (m : List (ℤ × String)) (attrId : ℤ) : Option String :=
  (m.reverse.find? (fun e => e.1 = attrId)).map (·.2)

/-- The child-side lookup key for one parent option
(tools/get-product-variants.ts, line 133):
`opt.attribute_code || opt.label?.toLowerCase().replace(/\s+/g, "_")`. -/
def childLookupKey (opt : M2ConfigurableOption) : String :=
  jsOrStr opt.attribute_code (labelToKey opt.label)

/-- One iteration of the `resolveSelectedOptions` loop
(tools/get-product-variants.ts, lines 125–142): look the option's
`attribute_id` up in the label map (`continue` when missing), find the child
attribute whose code is the option's lookup key, and push
`{ name: mapped label, value: attribute value }` when found, else skip. -/
def resolveOptionStep (customAttrs : List M2CustomAttribute)
    (optionLabelMap : List (ℤ × String))
    (acc : List SelectedOption) (opt : M2ConfigurableOption) : List SelectedOption :=
  match optionLabelMapGet optionLabelMap opt.attribute_id with
  | none => acc
  | some mappedLabel =>
    match customAttrs.find? (fun a => a.attribute_code = childLookupKey opt) with
    | some childAttr => acc ++ [⟨mappedLabel, childAttr.value⟩]
    | none => acc

/-- `resolveSelectedOptions` (tools/get-product-variants.ts, lines 117–145):
walk the parent's options in declaration order, accumulating the matched
`{ name, value }` pairs. -/
def resolveSelectedOptions (child : M2Product)
    (configOptions : List M2ConfigurableOption)
    (optionLabelMap : List (ℤ × String)) : List SelectedOption :=
  configOptions.foldl
    (resolveOptionStep (child.custom_attributes.getD []) optionLabelMap) []

/- ### get-orders extra filters (tools/get-orders.ts) -/

/-- The query parameters of `get-orders` that feed filter construction. -/
structure GetOrdersParams where
  ids : Option (List String) := none
  externalIds : Option (List String) := none
  statuses : Option (List String) := none
  names : Option (List String) := none
  updatedAtMin : Option String := none
  updatedAtMax : Option String := none
  createdAtMin : Option String := none
  createdAtMax : Option String := none
  pageSize : Option ℕ := none
  skip : Option ℕ := none
  deriving Repr, DecidableEq

/-- The `extraFilters` list built by `registerGetOrders`
(tools/get-orders.ts, lines 206–211): one `idsFilter` per truthy-length id
list, in source order. -/
def getOrdersExtraFilters (params : GetOrdersParams) : List M2Filter :=
  (if jsTruthyLen params.ids then [idsFilter "entity_id" (params.ids.getD [])] else []) ++
  (if jsTruthyLen params.externalIds then [idsFilter "ext_order_id" (params.externalIds.getD [])] else []) ++
  (if jsTruthyLen params.statuses then [idsFilter "state" (params.statuses.getD [])] else []) ++
  (if jsTruthyLen params.names then [idsFilter "increment_id" (params.names.getD [])] else [])

/-- The criteria `registerGetOrders` passes to the transport
(tools/get-orders.ts, line 213): the temporal/paging params spread together
with the extra filters. -/
def getOrdersCriteria (params : GetOrdersParams) : SearchCriteria :=
  buildSearchCriteria
    { updatedAtMin := params.updatedAtMin
      updatedAtMax := params.updatedAtMax
      createdAtMin := params.createdAtMin
      createdAtMax := params.createdAtMax
      pageSize := params.pageSize
      skip := params.skip
      extraFilters := some (getOrdersExtraFilters params) }

/- ### get-products request plan (tools/get-products.ts) -/

/-- The query parameters of `get-products`. -/
structure GetProductsParams where
  ids : Option (List String) := none
  skus : Option (List String) := none
  updatedAtMin : Option String := none
  updatedAtMax : Option String := none
  createdAtMin : Option String := none
  createdAtMax : Option String := none
  pageSize : Option ℕ := none
  skip : Option ℕ := none
  deriving Repr, DecidableEq

/-- The transport request `get-products` decides to issue: either the direct
single-product endpoint `products/{sku}` (the sku is URI-encoded at the
transport boundary) or the search endpoint with criteria. -/
inductive ProductsRequest where
  | single (sku : String)
  | search (criteria : SearchCriteria)
  deriving Repr, DecidableEq

/-- The request-selection logic of `registerGetProducts`
(tools/get-products.ts, lines 25–36): `params.skus?.length === 1` takes the
direct endpoint with `params.skus[0]`; otherwise the id/sku membership
filters and temporal/paging params are folded into search criteria. -/
def getProductsPlan (params : GetProductsParams) : ProductsRequest :=
  if (params.skus.map List.length) = some 1 then
    .single (((params.skus.getD []).get? 0).getD "")
  else
    let extraFilters : List M2Filter :=
      (if jsTruthyLen params.ids then [idsFilter "entity_id" (params.ids.getD [])] else []) ++
      (if jsTruthyLen params.skus then [idsFilter "sku" (params.skus.getD [])] else [])
    .search (buildSearchCriteria
      { updatedAtMin := params.updatedAtMin
        updatedAtMax := params.updatedAtMax
        createdAtMin := params.createdAtMin
        createdAtMax := params.createdAtMax
        pageSize := params.pageSize
        skip := params.skip
        extraFilters := some extraFilters })

/-- A typed JS error value as seen by the tool handlers: either a
`MagentoApiError` (client/magento-client.ts, lines 37–47) carrying message,
status code, method and endpoint, or any other thrown `Error` carrying only
a message. -/
inductive JsError where
  | api (message : String) (statusCode : ℕ) (method : String) (endpoint : String)
  | generic (message : String)
  deriving Repr, DecidableEq

/-- `error.message`. -/
def JsError.message : JsError → String
  | .api m _ _ _ => m
  | .generic m => m

/-- The `statusMessages` context table of `MagentoClient.handleError`
(client/magento-client.ts, lines 162–167), with `""` for any other status. -/
def statusContext (status : ℕ) : String :=
  if status = 401 then "Authentication failed — check M2_ACCESS_TOKEN or OAuth credentials"
  else if status = 403 then "Forbidden — the integration lacks permission for this resource"
  else if status = 404 then "Resource not found"
  else if status = 429 then "Rate limited — reduce request frequency"
  else ""

/-- The message `MagentoClient.handleError` gives a `MagentoApiError`
(client/magento-client.ts, lines 170–175). -/
def apiErrorMessage (method endpoint : String) (status : ℕ) (errorBody : String) : String :=
  let context := statusContext status
  "Magento API error: " ++ method ++ " " ++ endpoint ++ " returned " ++
    toString status ++ ". " ++ context ++
    (if context = "" then "" else ". ") ++ "Detail: " ++ errorBody

/-- The `MagentoApiError` raised by `MagentoClient.handleError` for a
non-success response. -/
def mkApiError (method endpoint : String) (status : ℕ) (errorBody : String) : JsError :=
  .api (apiErrorMessage method endpoint status errorBody) status method endpoint

/-- The uniform response envelope (tools/_helpers.ts, lines 65–76):
`successResult` serializes `{ success: true, ...data }`, `errorResult`
serializes `{ success: false, error }` and sets `isError`.  The payload is
kept structured rather than JSON-serialized. -/
inductive Envelope (α : Type) where
  | success (payload : α)
  | failure (error : String)
  deriving Repr, DecidableEq

/-- Whether an envelope is the failure shape. -/
def Envelope.isFailure {α : Type} : Envelope α → Bool
  | .success _ => false
  | .failure _ => true

/- ### Native return shapes (types/magento.ts) -/

/-- JS `String(x || "")` for an optional integer `x` (used for
`item.entity_id` and `cm.invoice_id`): `undefined` and `0` are falsy and
yield the empty string. -/
def jsStringOfOptInt (x : Option ℤ) : String :=
  match x with
  | none => ""
  | some n => if n = 0 then "" else toString n

/-- `M2RmaItem` (types/magento.ts). -/
structure M2RmaItem where
  entity_id : Option ℤ := none
  order_item_id : ℤ
  product_sku : Option String := none
  qty_requested : ℚ
  reason : Option String := none
  condition : Option String := none
  resolution : Option String := none
  product_price : Option ℚ := none
  product_name : Option String := none
  deriving Repr, DecidableEq

/-- `M2RmaComment` (types/magento.ts). -/
structure M2RmaComment where
  comment : String
  is_visible_on_front : Option Bool := none
  is_customer_notified : Option Bool := none
  deriving Repr, DecidableEq

/-- `M2RmaTrack` (types/magento.ts). -/
structure M2RmaTrack where
  carrier_title : Option String := none
  track_number : String
  deriving Repr, DecidableEq

/-- `M2Rma` (types/magento.ts). -/
structure M2Rma where
  entity_id : ℤ
  increment_id : Option String := none
  order_id : ℤ
  status : Option String := none
  items : Option (List M2RmaItem) := none
  comments : Option (List M2RmaComment) := none
  tracks : Option (List M2RmaTrack) := none
  date_requested : Option String := none
  deriving Repr, DecidableEq

/-- `M2CreditMemoItem` (types/magento.ts). -/
structure M2CreditMemoItem where
  entity_id : Option ℤ := none
  order_item_id : ℤ
  sku : Option String := none
  qty : ℚ
  price : Option ℚ := none
  row_total : Option ℚ := none
  name : Option String := none
  deriving Repr, DecidableEq

/-- `M2CreditMemoComment` (types/magento.ts). -/
structure M2CreditMemoComment where
  comment : String
  deriving Repr, DecidableEq

/-- `M2CreditMemo` (types/magento.ts). -/
structure M2CreditMemo where
  entity_id : ℤ
  increment_id : Option String := none
  order_id : ℤ
  invoice_id : Option ℤ := none
  items : Option (List M2CreditMemoItem) := none
  comments : Option (List M2CreditMemoComment) := none
  subtotal : Option ℚ := none
  grand_total : Option ℚ := none
  shipping_amount : Option ℚ := none
  adjustment_negative : Option ℚ := none
  created_at : String
  updated_at : String
  deriving Repr, DecidableEq

/- ### Canonical return shape (read path, tools/get-returns.ts) -/

/-- The `inspection` sub-object of a canonical return line item. -/
structure OnxInspection where
  conditionCategory : Option String
  dispositionOutcome : Option String
  note : String
  deriving Repr, DecidableEq

/-- One canonical return line item, as built by the read path.  `inspection`
is an `Option` because the credit-memo translation emits no `inspection`
key at all. -/
structure OnxReturnLineItem where
  id : String
  orderLineItemId : String
  sku : String
  quantityReturned : ℚ
  returnReason : String
  inspection : Option OnxInspection
  unitPrice : Option ℚ
  refundAmount : Option ℚ
  restockFee : Option ℚ
  name : String
  deriving Repr, DecidableEq

/-- One return shipping label `{ carrier, trackingNumber }` (read path). -/
structure OnxReturnLabel where
  carrier : String
  trackingNumber : String
  deriving Repr, DecidableEq

/-- The canonical Return value built by `mapRmaToOnx` / `mapCreditMemoToOnx`
(tools/get-returns.ts).  Fields the source sets to `undefined` are `none`. -/
structure OnxReturn where
  id : String
  returnNumber : Option String
  orderId : String
  status : String
  outcome : String
  returnLineItems : List OnxReturnLineItem
  exchangeLineItems : List OnxReturnLineItem
  totalQuantity : ℚ
  returnMethod : Option String
  returnShippingAddress : Option OnxAddress
  labels : List OnxReturnLabel
  locationId : Option String
  returnTotal : Option ℚ
  exchangeTotal : Option ℚ
  refundAmount : Option ℚ
  refundMethod : Option String
  refundStatus : Option String
  refundTransactionId : Option String
  shippingRefundAmount : Option ℚ
  returnShippingFees : Option ℚ
  restockingFee : Option ℚ
  requestedAt : Option String
  receivedAt : Option String
  completedAt : Option String
  customerNote : Option String
  internalNote : Option String
  returnInstructions : Option String
  declineReason : Option String
  statusPageUrl : Option String
  tags : List String
  customFields : List CustomField
  createdAt : Option String
  updatedAt : Option String
  deriving Repr, DecidableEq

/-- `mapRmaToOnx` (tools/get-returns.ts, lines 243–329). -/
def mapRmaToOnx (rma : M2Rma) (vendorNs : String) : OnxReturn :=
  let returnLineItems : List OnxReturnLineItem :=
    (rma.items.getD []).map (fun item =>
      { id := jsStringOfOptInt item.entity_id
        orderLineItemId := toString item.order_item_id
        sku := jsOrStr item.product_sku ""
        quantityReturned := item.qty_requested
        returnReason := jsOrStr item.reason ""
        inspection := some
          { conditionCategory := jsStrOrUndef item.condition
            dispositionOutcome := jsStrOrUndef item.resolution
            note := "" }
        unitPrice := jsNumOrUndef item.product_price
        refundAmount := none
        restockFee := none
        name := jsOrStr item.product_name "" })
  let totalQuantity : ℚ :=
    returnLineItems.foldl (fun sum li => sum + jsOrNum (some li.quantityReturned) 0) 0
  let comments := rma.comments.getD []
  let customerComments := String.intercalate "; "
    ((comments.filter (fun c => c.is_visible_on_front.getD false)).map (·.comment))
  let internalComments := String.intercalate "; "
    ((comments.filter (fun c => !(c.is_visible_on_front.getD false))).map (·.comment))
  { id := toString rma.entity_id
    returnNumber := rma.increment_id
    orderId := toString rma.order_id
    status := jsOrStr rma.status "requested"
    outcome := "refund"
    returnLineItems := returnLineItems
    exchangeLineItems := []
    totalQuantity := totalQuantity
    returnMethod := none
    returnShippingAddress := none
    labels := (rma.tracks.getD []).map (fun track =>
      ⟨jsOrStr track.carrier_title "", jsOrStr (some track.track_number) ""⟩)
    locationId := none
    returnTotal := none
    exchangeTotal := none
    refundAmount := none
    refundMethod := none
    refundStatus := none
    refundTransactionId := none
    shippingRefundAmount := none
    returnShippingFees := none
    restockingFee := none
    requestedAt := rma.date_requested
    receivedAt := none
    completedAt := none
    customerNote := jsStrOrUndef (some customerComments)
    internalNote := jsStrOrUndef (some internalComments)
    returnInstructions := none
    declineReason := none
    statusPageUrl := none
    tags := []
    customFields :=
      [⟨vendorNs ++ ":return_type", "rma"⟩,
       ⟨vendorNs ++ ":rma_entity_id", toString rma.entity_id⟩]
    createdAt := rma.date_requested
    updatedAt := rma.date_requested }

/-- `mapCreditMemoToOnx` (tools/get-returns.ts, lines 343–415). -/
def mapCreditMemoToOnx (cm : M2CreditMemo) (vendorNs : String) : OnxReturn :=
  let returnLineItems : List OnxReturnLineItem :=
    (cm.items.getD []).map (fun item =>
      { id := jsStringOfOptInt item.entity_id
        orderLineItemId := toString item.order_item_id
        sku := jsOrStr item.sku ""
        quantityReturned := item.qty
        returnReason := ""
        inspection := none
        unitPrice := jsNumOrUndef item.price
        refundAmount := jsNumOrUndef item.row_total
        restockFee := none
        name := jsOrStr item.name "" })
  let totalQuantity : ℚ :=
    returnLineItems.foldl (fun sum li => sum + jsOrNum (some li.quantityReturned) 0) 0
  let commentText := String.intercalate "; "
    ((cm.comments.getD []).map (·.comment))
  { id := toString cm.entity_id
    returnNumber := cm.increment_id
    orderId := toString cm.order_id
    status := "refunded"
    outcome := "refund"
    returnLineItems := returnLineItems
    exchangeLineItems := []
    totalQuantity := totalQuantity
    returnMethod := none
    returnShippingAddress := none
    labels := []
    locationId := none
    returnTotal := cm.subtotal
    exchangeTotal := none
    refundAmount := cm.grand_total
    refundMethod := some "original_payment"
    refundStatus := some "refunded"
    refundTransactionId := none
    shippingRefundAmount := some (jsOrNum cm.shipping_amount 0)
    returnShippingFees := none
    restockingFee := some |jsOrNum cm.adjustment_negative 0|
    requestedAt := some cm.created_at
    receivedAt := none
    completedAt := some cm.created_at
    customerNote := jsStrOrUndef (some commentText)
    internalNote := none
    returnInstructions := none
    declineReason := none
    statusPageUrl := none
    tags := []
    customFields :=
      [⟨vendorNs ++ ":return_type", "credit_memo"⟩,
       ⟨vendorNs ++ ":creditmemo_id", toString cm.entity_id⟩,
       ⟨vendorNs ++ ":invoice_id", jsStringOfOptInt cm.invoice_id⟩]
    createdAt := some cm.created_at
    updatedAt := some cm.updated_at }

/- ### get-returns read path (tools/get-returns.ts, lines 195–241, 331–341) -/

/-- The query parameters of `get-returns`. -/
structure GetReturnsParams where
  ids : Option (List String) := none
  orderIds : Option (List String) := none
  returnNumbers : Option (List String) := none
  statuses : Option (List String) := none
  outcomes : Option (List String) := none
  updatedAtMin : Option String := none
  updatedAtMax : Option String := none
  createdAtMin : Option String := none
  createdAtMax : Option String := none
  pageSize : Option ℕ := none
  skip : Option ℕ := none
  deriving Repr, DecidableEq

/-- A Magento list response; `items` is optional (`result.items || []` in the
handlers). -/
structure MagentoListResponse (α : Type) where
  items : Option (List α) := none
  deriving Repr, DecidableEq

/-- The extra filters of `getRmaReturns` (tools/get-returns.ts,
lines 230–234). -/
def getRmaExtraFilters (params : GetReturnsParams) : List M2Filter :=
  (if jsTruthyLen params.ids then [idsFilter "entity_id" (params.ids.getD [])] else []) ++
  (if jsTruthyLen params.orderIds then [idsFilter "order_id" (params.orderIds.getD [])] else []) ++
  (if jsTruthyLen params.statuses then [idsFilter "status" (params.statuses.getD [])] else []) ++
  (if jsTruthyLen params.returnNumbers then [idsFilter "increment_id" (params.returnNumbers.getD [])] else [])

/-- The criteria `getRmaReturns` sends to `GET returns`. -/
def getRmaCriteria (params : GetReturnsParams) : SearchCriteria :=
  buildSearchCriteria
    { updatedAtMin := params.updatedAtMin
      updatedAtMax := params.updatedAtMax
      createdAtMin := params.createdAtMin
      createdAtMax := params.createdAtMax
      pageSize := params.pageSize
      skip := params.skip
      extraFilters := some (getRmaExtraFilters params) }

/-- The extra filters of `getCreditMemoReturns` (tools/get-returns.ts,
lines 332–334). -/
def getCmExtraFilters (params : GetReturnsParams) : List M2Filter :=
  (if jsTruthyLen params.ids then [idsFilter "entity_id" (params.ids.getD [])] else []) ++
  (if jsTruthyLen params.orderIds then [idsFilter "order_id" (params.orderIds.getD [])] else [])

/-- The criteria `getCreditMemoReturns` sends to `GET creditmemos`. -/
def getCmCriteria (params : GetReturnsParams) : SearchCriteria :=
  buildSearchCriteria
    { updatedAtMin := params.updatedAtMin
      updatedAtMax := params.updatedAtMax
      createdAtMin := params.createdAtMin
      createdAtMax := params.createdAtMax
      pageSize := params.pageSize
      skip := params.skip
      extraFilters := some (getCmExtraFilters params) }

/-- One transport GET issued by the read path: endpoint plus criteria. -/
structure ContactedRequest where
  endpoint : String
  criteria : SearchCriteria
  deriving Repr, DecidableEq

/-- The read-path fallback test (tools/get-returns.ts, lines 214–217):
`rmaError instanceof MagentoApiError && (statusCode === 404 ||
statusCode === 403)`. -/
def isRmaReadFallback (e : JsError) : Bool :=
  match e with
  | .api _ statusCode _ _ => statusCode = 404 || statusCode = 403
  | .generic _ => false

/-- The `get-returns` handler (tools/get-returns.ts, lines 207–225) over an
abstract transport: `rmaOutcome` is the outcome of `GET returns` and
`cmOutcome` that of `GET creditmemos` (each used only if that call is
made).  Returns the response envelope together with the list of transport
requests issued, in order. -/
def getReturnsRun (params : GetReturnsParams)
    (rmaOutcome : Except JsError (MagentoListResponse M2Rma))
    (cmOutcome : Except JsError (MagentoListResponse M2CreditMemo))
    (vendorNs : String) :
    Envelope (List OnxReturn) × List ContactedRequest :=
  let rmaReq : ContactedRequest := ⟨"returns", getRmaCriteria params⟩
  let cmReq : ContactedRequest := ⟨"creditmemos", getCmCriteria params⟩
  match rmaOutcome with
  | .ok result =>
    (.success ((result.items.getD []).map (fun rma => mapRmaToOnx rma vendorNs)), [rmaReq])
  | .error rmaError =>
    if isRmaReadFallback rmaError then
      match cmOutcome with
      | .ok result =>
        (.success ((result.items.getD []).map (fun cm => mapCreditMemoToOnx cm vendorNs)),
         [rmaReq, cmReq])
      | .error e =>
        (.failure ("get-returns failed: " ++ e.message), [rmaReq, cmReq])
    else
      (.failure ("get-returns failed: " ++ rmaError.message), [rmaReq])

/- ### create-return write path (tools/create-return.ts) -/

/-- The `inspection` input sub-object (zod `inspectionSchema`). -/
structure InputInspection where
  conditionCategory : Option String := none
  dispositionOutcome : Option String := none
  warehouseLocationId : Option String := none
  note : Option String := none
  inspectedBy : Option String := none
  inspectedAt : Option String := none
  images : Option (List String) := none
  deriving Repr, DecidableEq

/-- One input return line item (zod `returnLineItemSchema`). -/
structure InputReturnLineItem where
  id : Option String := none
  orderLineItemId : String
  sku : String
  quantityReturned : ℚ
  returnReason : String
  inspection : Option InputInspection := none
  unitPrice : Option ℚ := none
  refundAmount : Option ℚ := none
  restockFee : Option ℚ := none
  name : Option String := none
  deriving Repr, DecidableEq

/-- One input exchange line item (zod `exchangeLineItemSchema`). -/
structure ExchangeLineItem where
  id : Option String := none
  exchangeOrderId : Option String := none
  exchangeOrderName : Option String := none
  sku : String
  name : Option String := none
  quantity : ℚ
  unitPrice : Option ℚ := none
  deriving Repr, DecidableEq

/-- An input address (zod `addressSchema`; every field optional). -/
structure InputAddress where
  address1 : Option String := none
  address2 : Option String := none
  city : Option String := none
  company : Option String := none
  country : Option String := none
  email : Option String := none
  firstName : Option String := none
  lastName : Option String := none
  phone : Option String := none
  stateOrProvince : Option String := none
  zipCodeOrPostalCode : Option String := none
  deriving Repr, DecidableEq

/-- One input return label (zod `returnLabelSchema`). -/
structure ReturnLabel where
  status : Option String := none
  carrier : String
  trackingNumber : String
  url : Option String := none
  rate : Option ℚ := none
  createdAt : Option String := none
  updatedAt : Option String := none
  deriving Repr, DecidableEq

/-- The input return method (zod `returnMethodSchema`). -/
structure ReturnMethodInput where
  provider : Option String := none
  methodType : Option String := none
  address : Option InputAddress := none
  qrCodeUrl : Option String := none
  updatedAt : Option String := none
  deriving Repr, DecidableEq

/-- The `return` input of `create-return` (tools/create-return.ts,
lines 132–178). -/
structure ReturnInput where
  externalId : Option String := none
  returnNumber : Option String := none
  orderId : String
  status : Option String := none
  outcome : String
  returnLineItems : List InputReturnLineItem
  exchangeLineItems : Option (List ExchangeLineItem) := none
  totalQuantity : Option ℚ := none
  returnMethod : Option ReturnMethodInput := none
  returnShippingAddress : Option InputAddress := none
  labels : Option (List ReturnLabel) := none
  locationId : Option String := none
  returnTotal : Option ℚ := none
  exchangeTotal : Option ℚ := none
  refundAmount : Option ℚ := none
  refundMethod : Option String := none
  refundStatus : Option String := none
  refundTransactionId : Option String := none
  shippingRefundAmount : Option ℚ := none
  returnShippingFees : Option ℚ := none
  restockingFee : Option ℚ := none
  requestedAt : Option String := none
  receivedAt : Option String := none
  completedAt : Option String := none
  customerNote : Option String := none
  internalNote : Option String := none
  returnInstructions : Option String := none
  declineReason : Option String := none
  statusPageUrl : Option String := none
  tags : Option (List String) := none
  customFields : Option (List CustomField) := none
  deriving Repr, DecidableEq

/-- The fields of the `POST returns` response the write path reads
(`rma.entity_id`, `rma.increment_id`, `rma.status`, `rma.date_requested`). -/
structure RmaCreateResponse where
  entity_id : ℤ
  increment_id : Option String := none
  status : Option String := none
  date_requested : Option String := none
  deriving Repr, DecidableEq

/-- The result object `mapRmaToOnxReturn` builds (tools/create-return.ts,
lines 264–319). -/
structure RmaReturnResult where
  id : String
  returnNumber : Option String
  orderId : String
  status : String
  outcome : String
  returnLineItems : List InputReturnLineItem
  exchangeLineItems : List ExchangeLineItem
  totalQuantity : ℚ
  returnMethod : Option ReturnMethodInput
  returnShippingAddress : Option InputAddress
  labels : List ReturnLabel
  locationId : Option String
  returnTotal : Option ℚ
  exchangeTotal : Option ℚ
  refundAmount : Option ℚ
  refundMethod : Option String
  refundStatus : String
  refundTransactionId : Option String
  shippingRefundAmount : ℚ
  returnShippingFees : ℚ
  restockingFee : ℚ
  requestedAt : String
  receivedAt : Option String
  completedAt : Option String
  customerNote : Option String
  internalNote : Option String
  returnInstructions : Option String
  declineReason : Option String
  statusPageUrl : Option String
  tags : List String
  customFields : List CustomField
  createdAt : String
  updatedAt : String
  deriving Repr, DecidableEq

/-- The result object the credit-memo fallback builds inline
(tools/create-return.ts, lines 227–252); its key set differs from the RMA
result's. -/
structure CmReturnResult where
  id : String
  orderId : String
  status : String
  outcome : String
  returnLineItems : List InputReturnLineItem
  exchangeLineItems : List ExchangeLineItem
  totalQuantity : ℚ
  refundAmount : Option ℚ
  refundMethod : String
  refundStatus : String
  shippingRefundAmount : ℚ
  returnShippingFees : ℚ
  restockingFee : ℚ
  customerNote : Option String
  internalNote : String
  tags : List String
  customFields : List CustomField
  createdAt : String
  updatedAt : String
  deriving Repr, DecidableEq

/-- The payload of a successful `create-return`: the two code paths build
literals of different shapes. -/
inductive CreateReturnPayload where
  | rma (result : RmaReturnResult)
  | creditMemo (result : CmReturnResult)
  deriving Repr, DecidableEq

/-- `input.returnLineItems.reduce((sum, li) => sum + li.quantityReturned, 0)`. -/
def sumQuantityReturned (items : List InputReturnLineItem) : ℚ :=
  items.foldl (fun sum li => sum + li.quantityReturned) 0

/-- `mapRmaToOnxReturn` (tools/create-return.ts, lines 264–319).  `now` is
the value of `new Date().toISOString()` at this call. -/
def mapRmaToOnxReturn (rma : RmaCreateResponse) (input : ReturnInput)
    (vendorNs now : String) : RmaReturnResult :=
  { id := toString rma.entity_id
    returnNumber := jsOrStrOpt rma.increment_id input.returnNumber
    orderId := input.orderId
    status := jsOrStr rma.status "requested"
    outcome := input.outcome
    returnLineItems := input.returnLineItems
    exchangeLineItems := input.exchangeLineItems.getD []
    totalQuantity := jsOrNum input.totalQuantity (sumQuantityReturned input.returnLineItems)
    returnMethod := input.returnMethod
    returnShippingAddress := input.returnShippingAddress
    labels := input.labels.getD []
    locationId := input.locationId
    returnTotal := input.returnTotal
    exchangeTotal := input.exchangeTotal
    refundAmount := input.refundAmount
    refundMethod := input.refundMethod
    refundStatus := jsOrStr input.refundStatus "pending"
    refundTransactionId := input.refundTransactionId
    shippingRefundAmount := jsOrNum input.shippingRefundAmount 0
    returnShippingFees := jsOrNum input.returnShippingFees 0
    restockingFee := jsOrNum input.restockingFee 0
    requestedAt := jsOrStr rma.date_requested (jsOrStr input.requestedAt now)
    receivedAt := input.receivedAt
    completedAt := input.completedAt
    customerNote := input.customerNote
    internalNote := input.internalNote
    returnInstructions := input.returnInstructions
    declineReason := input.declineReason
    statusPageUrl := input.statusPageUrl
    tags := input.tags.getD []
    customFields := (input.customFields.getD []) ++
      [⟨vendorNs ++ ":return_type", "rma"⟩,
       ⟨vendorNs ++ ":rma_entity_id", toString rma.entity_id⟩]
    createdAt := jsOrStr rma.date_requested now
    updatedAt := jsOrStr rma.date_requested now }

/-- The inline credit-memo result literal (tools/create-return.ts,
lines 227–252).  `cmId` is the credit-memo entity id taken from the `POST
order/{id}/refund` response (the raw number, or `entity_id` when the
response is an object). -/
def mkCmReturnResult (cmId : ℤ) (input : ReturnInput) (vendorNs now : String) :
    CmReturnResult :=
  { id := toString cmId
    orderId := input.orderId
    status := "refunded"
    outcome := input.outcome
    returnLineItems := input.returnLineItems
    exchangeLineItems := input.exchangeLineItems.getD []
    totalQuantity := jsOrNum input.totalQuantity (sumQuantityReturned input.returnLineItems)
    refundAmount := input.refundAmount
    refundMethod := "original_payment"
    refundStatus := "refunded"
    shippingRefundAmount := jsOrNum input.shippingRefundAmount 0
    returnShippingFees := jsOrNum input.returnShippingFees 0
    restockingFee := jsOrNum input.restockingFee 0
    customerNote := input.customerNote
    internalNote := jsOrStr input.internalNote
      "RMA not available — processed as credit memo (Magento Open Source)"
    tags := input.tags.getD []
    customFields := (input.customFields.getD []) ++
      [⟨vendorNs ++ ":return_type", "credit_memo"⟩]
    createdAt := now
    updatedAt := now }

/-- The write-path fallback test (tools/create-return.ts, line 206):
`rmaError.message?.includes("404") || rmaError.message?.includes("403")` —
a substring test on the message of WHATEVER was thrown, not a typed test on
a status code. -/
def isRmaWriteFallback (e : JsError) : Bool :=
  jsIncludes e.message "404" || jsIncludes e.message "403"

/-- The `create-return` handler (tools/create-return.ts, lines 180–260) over
an abstract transport: `rmaOutcome` is the outcome of `POST returns` and
`cmOutcome` that of `POST order/{orderId}/refund` (used only if that call
is made; modelled by the resulting credit-memo id).  The request bodies are
built from `ret` exactly as in the source and do not influence the control
flow, so the trace records the endpoints POSTed, in order. -/
def createReturnRun (ret : ReturnInput)
    (rmaOutcome : Except JsError RmaCreateResponse)
    (cmOutcome : Except JsError ℤ)
    (vendorNs now : String) :
    Envelope CreateReturnPayload × List String :=
  match rmaOutcome with
  | .ok rma =>
    (.success (.rma (mapRmaToOnxReturn rma ret vendorNs now)), ["returns"])
  | .error rmaError =>
    if isRmaWriteFallback rmaError then
      match cmOutcome with
      | .ok cmId =>
        (.success (.creditMemo (mkCmReturnResult cmId ret vendorNs now)),
         ["returns", "order/" ++ ret.orderId ++ "/refund"])
      | .error e =>
        (.failure ("create-return failed: " ++ e.message),
         ["returns", "order/" ++ ret.orderId ++ "/refund"])
    else
      (.failure ("create-return failed: " ++ rmaError.message), ["returns"])

/-- The `get-products` handler (tools/get-products.ts, lines 23–43) over an
abstract transport: `singleOutcome` is the outcome of `GET products/{sku}`
and `searchOutcome` that of `GET products` with criteria (each used only if
that request is issued).  Returns the envelope and the requests issued. -/
def getProductsRun (params : GetProductsParams)
    (singleOutcome : Except JsError M2Product)
    (searchOutcome : Except JsError (MagentoListResponse M2Product))
    (vendorNs currency : String) :
    Envelope (List OnxProduct) × List ProductsRequest :=
  match getProductsPlan params with
  | .single sku =>
    match singleOutcome with
    | .ok product =>
      (.success [mapM2ProductToOnx product vendorNs currency], [.single sku])
    | .error e => (.failure ("get-products failed: " ++ e.message), [.single sku])
  | .search criteria =>
    match searchOutcome with
    | .ok result =>
      (.success ((result.items.getD []).map
        (fun prod => mapM2ProductToOnx prod vendorNs currency)), [.search criteria])
    | .error e => (.failure ("get-products failed: " ++ e.message), [.search criteria])

/-- Spec-side counting measure for claim C4 (stated from the spec's words,
for comparison with `buildSearchCriteria`): the number of present temporal
bounds among the four. -/
def presentBoundCount (p : CriteriaParams) : ℕ :=
  (if p.createdAtMin.isSome then 1 else 0) + (if p.createdAtMax.isSome then 1 else 0) +
  (if p.updatedAtMin.isSome then 1 else 0) + (if p.updatedAtMax.isSome then 1 else 0)

/- ### Concrete example values used by counterexamples and witnesses -/

/-- A native order with one simple line item whose `discount_amount` is `-5`
and an order-level `discount_amount` of `-12.5`. -/
def orderC3 : M2Order :=
  { entity_id := 1
    increment_id := "000000001"
    state := "new"
    status := "pending"
    store_id := 1
    items := some
      [{ item_id := 2, sku := "SKU-A", qty_ordered := 1, price := 10,
         discount_amount := some (-5), row_total := 10,
         product_type := some "simple" }]
    customer_email := "a@example.com"
    order_currency_code := "USD"
    subtotal := 10
    grand_total := 10
    tax_amount := 0
    discount_amount := some (-25/2)
    created_at := "2024-01-01T00:00:00Z"
    updated_at := "2024-01-01T00:00:00Z" }

/-- A native order whose item list holds a `"configurable"` parent entry and
its `"simple"` child entry. -/
def orderC6 : M2Order :=
  { entity_id := 9
    increment_id := "000000009"
    state := "new"
    status := "pending"
    store_id := 1
    items := some
      [{ item_id := 21, sku := "TEE", qty_ordered := 1, price := 20,
         row_total := 20, product_type := some "configurable" },
       { item_id := 22, sku := "TEE-M-RED", qty_ordered := 1, price := 20,
         row_total := 20, product_type := some "simple" }]
    customer_email := "b@example.com"
    order_currency_code := "USD"
    subtotal := 20
    grand_total := 20
    tax_amount := 0
    created_at := "2024-02-01T00:00:00Z"
    updated_at := "2024-02-01T00:00:00Z" }

/-- A plain native simple product with no custom attributes. -/
def prodEx : M2Product :=
  { id := 7, sku := "SKU-7", name := "Widget", status := 1, price := 10,
    type_id := "simple", attribute_set_id := 4,
    created_at := "2024-01-01", updated_at := "2024-01-02" }

/-- A native child product exposing the attribute `{code:"color",
value:"42"}`. -/
def childColor : M2Product :=
  { id := 31, sku := "TEE-RED", name := "Tee Red", status := 1, price := 15,
    type_id := "simple", attribute_set_id := 4,
    custom_attributes := some [⟨"color", "42"⟩],
    created_at := "2024-01-01", updated_at := "2024-01-02" }

/-- A native child product lacking the `color` attribute. -/
def childPlain : M2Product :=
  { id := 32, sku := "TEE-NA", name := "Tee NA", status := 1, price := 15,
    type_id := "simple", attribute_set_id := 4,
    created_at := "2024-01-01", updated_at := "2024-01-02" }

/-- The parent option `{attributeId:93, label:"Color", attributeCode:"color"}`. -/
def optsColor : List M2ConfigurableOption :=
  [{ attribute_id := 93, label := "Color", attribute_code := some "color" }]

/-- A minimal `create-return` input for order `"1"`. -/
def retC2 : ReturnInput :=
  { orderId := "1"
    outcome := "refund"
    returnLineItems :=
      [{ orderLineItemId := "11", sku := "SKU-A", quantityReturned := 1,
         returnReason := "damaged" }] }

/-- A `MagentoApiError` raised by the client for a 500 (server-error class)
response whose body text happens to contain the characters `404`. -/
def err500C2 : JsError :=
  mkApiError "POST" "returns" 500 "upstream gateway served /404.html for this request"

/-- A minimal native credit memo. -/
def cmC1 : M2CreditMemo :=
  { entity_id := 7, order_id := 3,
    items := some [{ order_item_id := 11, qty := 1, row_total := some 10 }],
    subtotal := some 10, grand_total := some 11,
    created_at := "2024-03-01", updated_at := "2024-03-02" }

/- ### Shared helper lemmas -/

/-- When an optional string is never the empty string, JS truthiness of the
string coincides with presence. -/
lemma jsTruthyStr_eq_isSome (o : Option String) (h : ∀ s, o = some s → s ≠ "") :
    jsTruthyStr o = o.isSome := by
  cases o with
  | none => rfl
  | some s => simp [jsTruthyStr, h s rfl]

/- ### C3 — discount sign normalization (order mapper) -/

/-- C3, counterexample: the mapper does NOT take the absolute value of a line
item's native `discount_amount`.  For an order whose single simple item has
`discount_amount = -5`, the translated line item's `unitDiscount` is `-5`,
not `|-5| = 5` (the order-level `orderDiscount`, by contrast, is
`|-12.5| = 12.5`). -/
theorem mapM2OrderToOnx_unitDiscount_counterexample :
    (mapM2OrderToOnx orderC3 "m2").lineItems.map OnxLineItem.unitDiscount = [(-5 : ℚ)] ∧
    (orderC3.items.getD []).map M2OrderItem.discount_amount = [some (-5 : ℚ)] ∧
    |(-5 : ℚ)| = 5 ∧ (-5 : ℚ) ≠ 5 ∧
    (mapM2OrderToOnx orderC3 "m2").orderDiscount = (25 / 2 : ℚ) := by
  refine ⟨by decide, by decide, by norm_num, by norm_num, ?_⟩
  show |jsOrNum orderC3.discount_amount 0| = (25 / 2 : ℚ)
  norm_num [orderC3, jsOrNum]

/-- C3, amended: the order-level `orderDiscount` is the absolute value of the
native `discount_amount` (0 when absent), but each translated line item's
`unitDiscount` is the item's native `discount_amount` as stored (0 when
absent or zero), with no sign normalization. -/
theorem mapM2OrderToOnx_discount_amended (o : M2Order) (ns : String) :
    (mapM2OrderToOnx o ns).orderDiscount = |jsOrNum o.discount_amount 0| ∧
    (mapM2OrderToOnx o ns).lineItems.map OnxLineItem.unitDiscount =
      ((o.items.getD []).filter
          (fun i => i.product_type ≠ some "configurable")).map
        (fun i => jsOrNum i.discount_amount 0) := by
  refine ⟨rfl, ?_⟩
  simp only [mapM2OrderToOnx, List.map_map]
  rfl

/- ### C6 — parent "configurable" entries excluded from line items -/

/-- C6: the canonical line-item list is exactly the native item list minus
the `"configurable"`-typed entries, in order; for the concrete order with
one `"configurable"` parent entry (item 21) and one `"simple"` child entry
(item 22), exactly the child survives. -/
theorem mapM2OrderToOnx_excludes_configurable (o : M2Order) (ns : String) :
    (mapM2OrderToOnx o ns).lineItems =
      ((o.items.getD []).filter
          (fun i => i.product_type ≠ some "configurable")).map
        (mapM2OrderItem ns) ∧
    (mapM2OrderToOnx orderC6 "m2").lineItems.map OnxLineItem.id = ["22"] ∧
    (orderC6.items.getD []).length = 2 := by
  exact ⟨rfl, by decide, by decide⟩

/- ### C8 — page math -/

/-- C8: for positive supplied page sizes, the emitted criteria satisfy
`currentPage = floor(skip / pageSize) + 1` with `pageSize` defaulting to 10
when unspecified and `skip` defaulting to 0.  (A supplied `pageSize` of 0
would be replaced by 10 by the `||` default, which is why positivity is
assumed: the claim's formula is about positive page sizes.) -/
theorem buildSearchCriteria_paging (p : CriteriaParams)
    (h : ∀ n, p.pageSize = some n → 0 < n) :
    (buildSearchCriteria p).pageSize = p.pageSize.getD 10 ∧
    (buildSearchCriteria p).currentPage = p.skip.getD 0 / p.pageSize.getD 10 + 1 := by
  cases hps : p.pageSize with
  | none => exact ⟨by simp [buildSearchCriteria, hps], by simp [buildSearchCriteria, hps]⟩
  | some n =>
    have hn : ¬(n = 0) := Nat.pos_iff_ne_zero.mp (h n hps)
    exact ⟨by simp [buildSearchCriteria, hps, hn], by simp [buildSearchCriteria, hps, hn]⟩

/-- C8, witness: `skip=0, pageSize=10 → currentPage=1`;
`skip=25, pageSize=10 → currentPage=3`; unspecified `pageSize` defaults
to 10. -/
theorem buildSearchCriteria_paging_witness :
    (buildSearchCriteria { pageSize := some 10, skip := some 0 }).currentPage = 1 ∧
    (buildSearchCriteria { pageSize := some 10, skip := some 25 }).currentPage = 3 ∧
    (buildSearchCriteria { skip := some 25 }).pageSize = 10 := by
  refine ⟨?_, ?_, ?_⟩
  · exact ((buildSearchCriteria_paging { pageSize := some 10, skip := some 0 }
      (by intro n hn; injection hn with h; omega)).2).trans (by decide)
  · exact ((buildSearchCriteria_paging { pageSize := some 10, skip := some 25 }
      (by intro n hn; injection hn with h; omega)).2).trans (by decide)
  · exact ((buildSearchCriteria_paging { skip := some 25 }
      (by intro n hn; cases hn)).1).trans (by decide)

/- ### C4 — one filter group per present bound; absent `filterGroups` -/

/-- C4: with each present temporal bound a (nonempty) ISO-8601 string, the
built criteria contain exactly one filter group per present bound plus one
per extra filter, none for absent bounds; and `filterGroups` is entirely
absent (`none`, never `some []`) exactly when no bound is present and the
extra-filter list is absent or empty. -/
theorem buildSearchCriteria_filterGroups_spec (p : CriteriaParams)
    (h1 : ∀ s, p.createdAtMin = some s → s ≠ "")
    (h2 : ∀ s, p.createdAtMax = some s → s ≠ "")
    (h3 : ∀ s, p.updatedAtMin = some s → s ≠ "")
    (h4 : ∀ s, p.updatedAtMax = some s → s ≠ "") :
    ((buildSearchCriteria p).filterGroups.getD []).length =
      presentBoundCount p + (p.extraFilters.getD []).length ∧
    ((buildSearchCriteria p).filterGroups = none ↔
      presentBoundCount p = 0 ∧ p.extraFilters.getD [] = []) := by
  obtain ⟨um, uM, cm, cM, ps, sk, ex⟩ := p
  have e1 : jsTruthyStr cm = cm.isSome := jsTruthyStr_eq_isSome cm (fun s hs => h1 s hs)
  have e2 : jsTruthyStr cM = cM.isSome := jsTruthyStr_eq_isSome cM (fun s hs => h2 s hs)
  have e3 : jsTruthyStr um = um.isSome := jsTruthyStr_eq_isSome um (fun s hs => h3 s hs)
  have e4 : jsTruthyStr uM = uM.isSome := jsTruthyStr_eq_isSome uM (fun s hs => h4 s hs)
  cases cm <;> cases cM <;> cases um <;> cases uM <;>
    rcases ex with _ | (_ | ⟨f, fs⟩) <;>
      simp_all [buildSearchCriteria, presentBoundCount] <;> omega

/-- C4, witness: one present bound and one extra filter give two groups
(`filterGroups` present); the all-absent input gives `filterGroups = none`. -/
theorem buildSearchCriteria_filterGroups_witness :
    ((buildSearchCriteria { createdAtMin := some "2024-01-01T00:00:00Z", extraFilters := some [⟨"state", "new", "eq"⟩] }).filterGroups.getD []).length = 2 ∧
    (buildSearchCriteria ({} : CriteriaParams)).filterGroups = none := by
  constructor
  · exact ((buildSearchCriteria_filterGroups_spec
      { createdAtMin := some "2024-01-01T00:00:00Z", extraFilters := some [⟨"state", "new", "eq"⟩] }
      (by intro s hs; injection hs with h; subst h; decide)
      (by intro s hs; cases hs) (by intro s hs; cases hs)
      (by intro s hs; cases hs)).1).trans (by decide)
  · exact (buildSearchCriteria_filterGroups_spec ({} : CriteriaParams)
      (by intro s hs; cases hs) (by intro s hs; cases hs)
      (by intro s hs; cases hs) (by intro s hs; cases hs)).2.mpr (by decide)

/- ### C9 — single comma-joined membership filter; empty lists filtered out -/

/-- C9: a non-empty id list passed to `get-orders` contributes exactly ONE
`entity_id` filter, whose condition is `"in"` and whose value is the
comma-join of the ids — never one filter per id; an absent or zero-length
id list contributes no `entity_id` filter at all. -/
theorem getOrders_membership_filter (p : GetOrdersParams) (l : List String) :
    (p.ids = some l → l ≠ [] →
      ((getOrdersExtraFilters p).countP (fun f => f.field = "entity_id") = 1 ∧
        idsFilter "entity_id" l ∈ getOrdersExtraFilters p)) ∧
    ((idsFilter "entity_id" l).value = String.intercalate "," l ∧
      (idsFilter "entity_id" l).conditionType = "in") ∧
    (p.ids = none ∨ p.ids = some [] →
      (getOrdersExtraFilters p).countP (fun f => f.field = "entity_id") = 0) := by
  refine ⟨?_, ⟨rfl, rfl⟩, ?_⟩
  · intro hids hl
    have ht : jsTruthyLen p.ids = true := by
      rw [hids]; simp [jsTruthyLen, hl]
    unfold getOrdersExtraFilters
    rw [ht, hids]
    cases jsTruthyLen p.externalIds <;> cases jsTruthyLen p.statuses <;>
      cases jsTruthyLen p.names <;>
        simp [List.countP_cons, List.countP_append, idsFilter]
  · intro h
    have ht : jsTruthyLen p.ids = false := by
      rcases h with h | h <;> rw [h] <;> simp [jsTruthyLen]
    unfold getOrdersExtraFilters
    rw [ht]
    cases jsTruthyLen p.externalIds <;> cases jsTruthyLen p.statuses <;>
      cases jsTruthyLen p.names <;>
        simp [List.countP_cons, List.countP_append, idsFilter]

/-- C9, witness: `["a","b","c"]` yields the single filter
`⟨"entity_id","a,b,c","in"⟩`; a zero-length id list yields none. -/
theorem getOrders_membership_filter_witness :
    ((getOrdersExtraFilters { ids := some ["a", "b", "c"] }).countP (fun f => f.field = "entity_id") = 1 ∧
      (⟨"entity_id", "a,b,c", "in"⟩ : M2Filter) ∈ getOrdersExtraFilters { ids := some ["a", "b", "c"] }) ∧
    (getOrdersExtraFilters { ids := some [] }).countP (fun f => f.field = "entity_id") = 0 := by
  constructor
  · exact (getOrders_membership_filter { ids := some ["a", "b", "c"] } ["a", "b", "c"]).1 rfl (by decide)
  · exact (getOrders_membership_filter { ids := some [] } []).2.2 (Or.inr rfl)

/- ### C5 — variant parent linkage fields -/

/-- C5, counterexample: when no parent linkage is supplied, the variant
mapper still populates `productId` — with the empty-string placeholder
(`parentId || ""`), instead of omitting the field.  `externalProductId`
does receive the native SKU.  This refutes "productId is not populated"
and "an absent canonical field is omitted entirely, never emitted as a
placeholder value". -/
theorem variant_productId_counterexample :
    (mapM2ProductVariantToOnx prodEx none "m2" "USD" none).productId = some "" ∧
    ((mapM2ProductVariantToOnx prodEx none "m2" "USD" none).productId).isSome = true ∧
    (mapM2ProductVariantToOnx prodEx none "m2" "USD" none).externalProductId = some "SKU-7" := by
  refine ⟨rfl, rfl, rfl⟩

/-- C5, amended: with a known (nonempty) parent id, `productId` is the
parent's id and `externalProductId` is absent; with no parent linkage,
`externalProductId` is the native SKU while `productId` is populated with
the empty-string placeholder `""` (not omitted). -/
theorem variant_parent_linkage (product : M2Product) (ns cur : String)
    (sel : Option (List SelectedOption)) :
    (∀ pid, pid ≠ "" →
      (mapM2ProductVariantToOnx product (some pid) ns cur sel).productId = some pid ∧
      (mapM2ProductVariantToOnx product (some pid) ns cur sel).externalProductId = none) ∧
    ((mapM2ProductVariantToOnx product none ns cur sel).productId = some "" ∧
      (mapM2ProductVariantToOnx product none ns cur sel).externalProductId = some product.sku) := by
  refine ⟨fun pid hpid => ⟨?_, ?_⟩, rfl, rfl⟩
  · show some (jsOrStr (some pid) "") = some pid
    simp [jsOrStr, hpid]
  · show (if jsTruthyStr (some pid) then none else some product.sku) = none
    simp [jsTruthyStr, hpid]

/-- C5, witness: the amended claim at the concrete parent id `"P1"` and at
the no-parent case, for the concrete product `prodEx`. -/
theorem variant_parent_linkage_witness :
    ((mapM2ProductVariantToOnx prodEx (some "P1") "m2" "USD" none).productId = some "P1" ∧
      (mapM2ProductVariantToOnx prodEx (some "P1") "m2" "USD" none).externalProductId = none) ∧
    ((mapM2ProductVariantToOnx prodEx none "m2" "USD" none).productId = some "" ∧
      (mapM2ProductVariantToOnx prodEx none "m2" "USD" none).externalProductId = some "SKU-7") :=
  ⟨(variant_parent_linkage prodEx "m2" "USD" none).1 "P1" (by decide),
   ((variant_parent_linkage prodEx "m2" "USD" none).2.1),
   ((variant_parent_linkage prodEx "m2" "USD" none).2.2)⟩

/- ### C7 — variant option resolution -/

/-- On an association list with pairwise-distinct keys, `find?` by key
returns the member with that key. -/
lemma find_assoc_of_nodup {l : List (ℤ × String)} {k : ℤ} {v : String}
    (hnd : (l.map Prod.fst).Nodup) (hmem : (k, v) ∈ l) :
    l.find? (fun e => e.1 = k) = some (k, v) := by
  induction l with
  | nil => cases hmem
  | cons hd tl ih =>
    rw [List.map_cons, List.nodup_cons] at hnd
    rcases List.mem_cons.mp hmem with rfl | hmem'
    · simp [List.find?]
    · have hk : ¬(hd.1 = k) := by
        intro hk
        exact hnd.1 (hk ▸ (List.mem_map.mpr ⟨(k, v), hmem', rfl⟩))
      rw [List.find?_cons_of_neg _ (by simpa using hk)]
      exact ih hnd.2 hmem'

/-- `Map.get` on the built option-label map: when the parent options declare
pairwise-distinct attribute ids, the lookup at a declared option's
attribute id returns that option's own label. -/
lemma optionLabelMapGet_eq {opts : List M2ConfigurableOption}
    {opt : M2ConfigurableOption}
    (hnd : (opts.map (fun o => o.attribute_id)).Nodup) (hmem : opt ∈ opts) :
    optionLabelMapGet (buildOptionLabelMap opts) opt.attribute_id = some opt.label := by
  unfold optionLabelMapGet buildOptionLabelMap
  have hnd' : (((opts.map (fun o => (o.attribute_id, o.label))).reverse).map Prod.fst).Nodup := by
    rw [List.map_reverse, List.nodup_reverse, List.map_map]
    exact hnd
  have hmem' : (opt.attribute_id, opt.label) ∈
      (opts.map (fun o => (o.attribute_id, o.label))).reverse := by
    rw [List.mem_reverse]
    exact List.mem_map.mpr ⟨opt, hmem, rfl⟩
  rw [find_assoc_of_nodup hnd' hmem']
  rfl

/-- Unrolling the `resolveSelectedOptions` fold: when every iterated option's
label-map lookup returns its own label, the fold appends, per option and in
order, the matched `{name, value}` pair (if any). -/
lemma resolve_foldl_eq (attrs : List M2CustomAttribute) (m : List (ℤ × String))
    (iter : List M2ConfigurableOption) (init : List SelectedOption)
    (hm : ∀ opt ∈ iter, optionLabelMapGet m opt.attribute_id = some opt.label) :
    iter.foldl (resolveOptionStep attrs m) init =
      init ++ iter.filterMap (fun opt =>
        ((attrs.find? (fun a => a.attribute_code = childLookupKey opt)).map
          (fun a => (⟨opt.label, a.value⟩ : SelectedOption)))) := by
  induction iter generalizing init with
  | nil => simp
  | cons hd tl ih =>
    rw [List.foldl_cons, List.filterMap_cons]
    have hhd := hm hd (List.mem_cons_self hd tl)
    have hstep : resolveOptionStep attrs m init hd =
        init ++ ((attrs.find? (fun a => a.attribute_code = childLookupKey hd)).map
          (fun a => (⟨hd.label, a.value⟩ : SelectedOption))).toList := by
      unfold resolveOptionStep
      rw [hhd]
      cases attrs.find? (fun a => a.attribute_code = childLookupKey hd) <;> simp
    rw [hstep, ih _ (fun opt ho => hm opt (List.mem_cons_of_mem hd ho))]
    cases attrs.find? (fun a => a.attribute_code = childLookupKey hd) <;> simp

/-- C7: when the parent's options declare pairwise-distinct attribute ids
(the platform's configurable-product model declares each attribute once),
the resolver output is the ordered sublist of matched options: per parent
option in declaration order, the child-side key is the explicit attribute
code when supplied (nonempty), else the lowercased label with whitespace
runs replaced by underscores; a child attribute with that code yields
`{name: option label, value: raw stored value}`, and a missing one silently
skips the option. -/
theorem resolveSelectedOptions_spec (child : M2Product)
    (opts : List M2ConfigurableOption)
    (hnd : (opts.map (fun o => o.attribute_id)).Nodup) :
    resolveSelectedOptions child opts (buildOptionLabelMap opts) =
      opts.filterMap (fun opt =>
        (((child.custom_attributes.getD []).find?
            (fun a => a.attribute_code = childLookupKey opt)).map
          (fun a => (⟨opt.label, a.value⟩ : SelectedOption)))) := by
  unfold resolveSelectedOptions
  rw [resolve_foldl_eq _ _ _ _ (fun opt ho => optionLabelMapGet_eq hnd ho)]
  simp

/-- C7, witness: parent option `{attributeId:93, label:"Color",
attributeCode:"color"}` with a child exposing `{code:"color", value:"42"}`
resolves to `[{name:"Color", value:"42"}]`; a child lacking the attribute
resolves to `[]`. -/
theorem resolveSelectedOptions_witness :
    resolveSelectedOptions childColor optsColor (buildOptionLabelMap optsColor) =
      [⟨"Color", "42"⟩] ∧
    resolveSelectedOptions childPlain optsColor (buildOptionLabelMap optsColor) = [] := by
  constructor
  · rw [resolveSelectedOptions_spec childColor optsColor (by decide)]
    decide
  · rw [resolveSelectedOptions_spec childPlain optsColor (by decide)]
    decide

/- ### C10 — single-SKU direct endpoint in get-products -/

/-- C10: whenever `skus` is exactly one SKU, `get-products` issues the direct
single-product request for that SKU — the result is the single mapped
product on success, and the `ids`, temporal-bound and paging parameters
have no effect on the issued request or the result (any two parameter sets
with the same singleton `skus` behave identically); the search-criteria
path is taken exactly when `skus` does not have length 1. -/
theorem getProducts_single_sku (p q : GetProductsParams) (sku : String)
    (hp : p.skus = some [sku]) (hq : q.skus = some [sku])
    (so : Except JsError M2Product)
    (se : Except JsError (MagentoListResponse M2Product)) (ns cur : String) :
    getProductsPlan p = .single sku ∧
    getProductsRun p so se ns cur = getProductsRun q so se ns cur ∧
    (∀ prod, so = .ok prod →
      getProductsRun p so se ns cur =
        (.success [mapM2ProductToOnx prod ns cur], [.single sku])) ∧
    (∀ r : GetProductsParams, r.skus.map List.length ≠ some 1 →
      ∃ c, getProductsPlan r = .search c) := by
  have hplanp : getProductsPlan p = .single sku := by
    unfold getProductsPlan
    rw [hp]
    simp
  have hplanq : getProductsPlan q = .single sku := by
    unfold getProductsPlan
    rw [hq]
    simp
  refine ⟨hplanp, ?_, ?_, ?_⟩
  · unfold getProductsRun
    rw [hplanp, hplanq]
  · intro prod hso
    subst hso
    unfold getProductsRun
    rw [hplanp]
  · intro r hr
    unfold getProductsPlan
    rw [if_neg hr]
    exact ⟨_, rfl⟩

/-- C10, witness: with `skus = ["AB C"]`, extra `ids`, a temporal bound and
paging present, the plan is still the direct request for `"AB C"` and the
run equals the run for the parameter set containing only that `skus`. -/
theorem getProducts_single_sku_witness :
    getProductsPlan { skus := some ["AB C"], ids := some ["9"], createdAtMin := some "2024-01-01", skip := some 25 } = .single "AB C" ∧
    getProductsRun { skus := some ["AB C"], ids := some ["9"], createdAtMin := some "2024-01-01", skip := some 25 } (.ok prodEx) (.error (.generic "unused")) "m2" "USD" =
      getProductsRun { skus := some ["AB C"] } (.ok prodEx) (.error (.generic "unused")) "m2" "USD" ∧
    getProductsRun { skus := some ["AB C"] } (.ok prodEx) (.error (.generic "unused")) "m2" "USD" =
      (.success [mapM2ProductToOnx prodEx "m2" "USD"], [.single "AB C"]) := by
  refine ⟨?_, ?_, ?_⟩
  · exact (getProducts_single_sku { skus := some ["AB C"], ids := some ["9"], createdAtMin := some "2024-01-01", skip := some 25 } { skus := some ["AB C"] } "AB C" rfl rfl (.ok prodEx) (.error (.generic "unused")) "m2" "USD").1
  · exact (getProducts_single_sku { skus := some ["AB C"], ids := some ["9"], createdAtMin := some "2024-01-01", skip := some 25 } { skus := some ["AB C"] } "AB C" rfl rfl (.ok prodEx) (.error (.generic "unused")) "m2" "USD").2.1
  · exact (getProducts_single_sku { skus := some ["AB C"] } { skus := some ["AB C"] } "AB C" rfl rfl (.ok prodEx) (.error (.generic "unused")) "m2" "USD").2.2.1 prodEx rfl

/- ### C1 — read-path capability fallback (get-returns) -/

/-- C1: on a typed `MagentoApiError` with status 404 or 403, `get-returns`
retries against the legacy credit-memo resource and returns its items
translated by `mapCreditMemoToOnx`, each tagged with the origin custom
field `return_type = "credit_memo"`; on a typed failure of any other
status class the legacy resource is never contacted (the trace stays
`[returns]`) and the failure propagates to the failure envelope. -/
theorem getReturns_capability_fallback (params : GetReturnsParams)
    (vendorNs msg method endpoint : String) (statusCode : ℕ)
    (cmResult : MagentoListResponse M2CreditMemo)
    (cmOutcome : Except JsError (MagentoListResponse M2CreditMemo)) :
    (statusCode = 404 ∨ statusCode = 403 →
      getReturnsRun params (.error (.api msg statusCode method endpoint)) (.ok cmResult) vendorNs =
        (.success ((cmResult.items.getD []).map (fun cm => mapCreditMemoToOnx cm vendorNs)),
         [⟨"returns", getRmaCriteria params⟩, ⟨"creditmemos", getCmCriteria params⟩]) ∧
      ∀ r ∈ (cmResult.items.getD []).map (fun cm => mapCreditMemoToOnx cm vendorNs),
        (⟨vendorNs ++ ":return_type", "credit_memo"⟩ : CustomField) ∈ r.customFields) ∧
    (¬(statusCode = 404 ∨ statusCode = 403) →
      getReturnsRun params (.error (.api msg statusCode method endpoint)) cmOutcome vendorNs =
        (.failure ("get-returns failed: " ++ msg), [⟨"returns", getRmaCriteria params⟩])) := by
  constructor
  · intro h
    have hfb : isRmaReadFallback (.api msg statusCode method endpoint) = true := by
      rcases h with h | h <;> simp [isRmaReadFallback, h]
    constructor
    · simp [getReturnsRun, hfb]
    · intro r hr
      rcases List.mem_map.mp hr with ⟨cm, _, rfl⟩
      simp [mapCreditMemoToOnx]
  · intro h
    push_neg at h
    have hfb : isRmaReadFallback (.api msg statusCode method endpoint) = false := by
      simp [isRmaReadFallback, h.1, h.2]
    simp [getReturnsRun, hfb, JsError.message]

/-- C1, witness: a typed 404 on the modern resource falls back to the legacy
translation (origin tag `credit_memo`, trace `[returns, creditmemos]`); a
typed 500 propagates with trace `[returns]`. -/
theorem getReturns_capability_fallback_witness :
    getReturnsRun {} (.error (.api "m" 404 "GET" "returns")) (.ok ⟨some [cmC1]⟩) "m2" =
      (.success [mapCreditMemoToOnx cmC1 "m2"],
       [⟨"returns", getRmaCriteria {}⟩, ⟨"creditmemos", getCmCriteria {}⟩]) ∧
    (⟨"m2:return_type", "credit_memo"⟩ : CustomField) ∈ (mapCreditMemoToOnx cmC1 "m2").customFields ∧
    getReturnsRun {} (.error (.api "boom" 500 "GET" "returns")) (.ok ⟨some [cmC1]⟩) "m2" =
      (.failure ("get-returns failed: boom"), [⟨"returns", getRmaCriteria {}⟩]) := by
  refine ⟨?_, ?_, ?_⟩
  · exact ((getReturns_capability_fallback {} "m2" "m" "GET" "returns" 404
      ⟨some [cmC1]⟩ (.ok ⟨some [cmC1]⟩)).1 (Or.inl rfl)).1
  · exact ((getReturns_capability_fallback {} "m2" "m" "GET" "returns" 404
      ⟨some [cmC1]⟩ (.ok ⟨some [cmC1]⟩)).1 (Or.inl rfl)).2
      (mapCreditMemoToOnx cmC1 "m2") (by simp)
  · exact (getReturns_capability_fallback {} "m2" "boom" "GET" "returns" 500
      ⟨some [cmC1]⟩ (.ok ⟨some [cmC1]⟩)).2 (by decide)

/- ### C2 — write-path fallback trigger (create-return) -/

/-- C2, counterexample: the write path's fallback test is a SUBSTRING test on
the error message (`rmaError.message?.includes("404") || ...includes("403")`),
not the read path's typed status test.  A `MagentoApiError` from the client
with status 500 — a server-error class — whose body text happens to contain
`404` therefore triggers the legacy credit-memo call (trace
`[returns, order/1/refund]`) and is masked as capability-absence, instead
of propagating immediately. -/
theorem createReturn_trigger_counterexample :
    err500C2 = .api (apiErrorMessage "POST" "returns" 500
      "upstream gateway served /404.html for this request") 500 "POST" "returns" ∧
    createReturnRun retC2 (.error err500C2) (.ok 9) "m2" "2024-05-01T00:00:00Z" =
      (.success (.creditMemo (mkCmReturnResult 9 retC2 "m2" "2024-05-01T00:00:00Z")),
       ["returns", "order/1/refund"]) := by
  constructor
  · rfl
  · have hfb : isRmaWriteFallback err500C2 = true := by decide
    simp [createReturnRun, hfb, retC2]

/-- C2, amended: the write-path legacy fallback is triggered exactly when the
thrown error's message contains the substring `"404"` or `"403"` (the
client embeds the status code in every typed error message, so typed
404/403 failures do trigger it — but so does any other failure whose
message happens to contain those digits); when the substring test fails,
the failure propagates to the failure envelope without the legacy endpoint
being contacted. -/
theorem createReturn_fallback_amended (ret : ReturnInput) (e : JsError)
    (cmOutcome : Except JsError ℤ) (ns now : String) :
    ((createReturnRun ret (.error e) cmOutcome ns now).2 =
        ["returns", "order/" ++ ret.orderId ++ "/refund"] ↔
      (jsIncludes e.message "404" || jsIncludes e.message "403") = true) ∧
    ((jsIncludes e.message "404" || jsIncludes e.message "403") = false →
      createReturnRun ret (.error e) cmOutcome ns now =
        (.failure ("create-return failed: " ++ e.message), ["returns"])) := by
  have hfb : isRmaWriteFallback e = (jsIncludes e.message "404" || jsIncludes e.message "403") := rfl
  cases hb : (jsIncludes e.message "404" || jsIncludes e.message "403") with
  | true =>
    cases cmOutcome <;> simp [createReturnRun, isRmaWriteFallback, hb]
  | false =>
    simp [createReturnRun, isRmaWriteFallback, hb]

/-- C2, amended-claim witness: a thrown validation error whose message holds
neither substring propagates as a failure envelope with only the modern
endpoint contacted. -/
theorem createReturn_fallback_amended_witness :
    createReturnRun retC2 (.error (.generic "validation failure: qty exceeds ordered")) (.ok 9) "m2" "2024-05-01T00:00:00Z" =
      (.failure ("create-return failed: validation failure: qty exceeds ordered"), ["returns"]) :=
  (createReturn_fallback_amended retC2 (.generic "validation failure: qty exceeds ordered")
    (.ok 9) "m2" "2024-05-01T00:00:00Z").2 (by decide)
